import Mathlib

/-!
# Verification of the myMIALab brain-tissue segmentation pipeline driver

This file shallowly embeds the pipeline driver `bin/main.py` of the myMIALab
repository, together with spec-modelled fragments of the collaborator modules
(`mialab.utilities.pipeline_utilities`) that the driver calls but whose source
is not part of the repository snapshot.  Machine arrays are modelled as Lean
lists over `ℚ`, the stateful module-level statistics accumulators are threaded
explicitly, and every externally visible action of the driver (batch
pre-processing calls, classifier fit/predict calls, image writes, evaluation
records) is recorded in an output trace so that theorems can speak about the
driver's sequencing behaviour.
-/

namespace MyMIALab

/-- `mialab.data.structure.BrainImageTypes`: the keys of the per-subject image
dictionary loaded by the crawler (`LOADING_KEYS` in `bin/main.py`). -/
inductive BrainImageTypes where
  | T1w
  | T2w
  | GroundTruth
  | BrainMask
  | RegistrationTransform
deriving DecidableEq, Repr

/-- Opaque handle for the geometric metadata (spacing, origin, direction) of a
SimpleITK image; the driver only passes it around, never inspects it. -/
abbrev ImageProps := ℕ

/-- A scalar SimpleITK image: a flat voxel array together with its geometric
metadata. -/
structure SitkImage where
  data : List ℚ
  props : ImageProps
deriving DecidableEq, Repr

/-- A vector-valued SimpleITK image (one vector of class probabilities per
voxel), as produced by `NumpySimpleITKImageBridge.convert` on a 2-D array. -/
structure SitkVectorImage where
  data : List (List ℚ)
  props : ImageProps
deriving DecidableEq, Repr

/-- `mialab.data.structure.BrainImage` as the driver uses it: an identifier,
the dictionary of loaded volumes, the geometric properties used to rebuild
volumes from flat arrays, and the feature matrix / label vector pair
`feature_matrix = (X, y)` filled in by pre-processing. -/
structure BrainImage where
  id_ : String
  images : BrainImageTypes → SitkImage
  image_properties : ImageProps
  feature_matrix : List (List ℚ) × List ℚ

instance : Inhabited BrainImage :=
  ⟨⟨"", fun _ => ⟨[], 0⟩, 0, ([], [])⟩⟩

/-- An entry of the crawler's `crawler.data`: an opaque handle for one crawled
subject directory. -/
abbrev RawSubject := ℕ

/-- The `pre_process_params` dictionary of `bin/main.py` (lines 66-72), with
the `'training'` key that line 188 adds before the testing pass. -/
structure PreProcessParams where
  skullstrip_pre : Bool
  normalization_pre : Bool
  artifact_pre : Bool
  registration_pre : Bool
  coordinates_feature : Bool
  intensity_feature : Bool
  gradient_intensity_feature : Bool
  training : Bool
deriving DecidableEq, Repr

/-- The module-level statistics accumulators of `pipeline_utilities`:
`feature_mean_intensities` and `feature_std_intensities`, the per-class
intensity statistics appended to by every pre-processed subject.  Each entry
is one subject's per-class statistics array, flattened to a list. -/
structure StatsState where
  feature_mean_intensities : List (List ℚ)
  feature_std_intensities : List (List ℚ)
deriving DecidableEq, Repr

/-- `pipeline_utilities.init_global_variable`: resets both statistics
accumulators to empty. -/
def init_global_variable : StatsState :=
  ⟨[], []⟩

/-- What `pre_process_batch` produces for one subject: the pre-processed
`BrainImage` and the subject's contribution to the two statistics
accumulators. -/
structure ProcessedSubject where
  image : BrainImage
  mean_entry : List ℚ
  std_entry : List ℚ

/-- The hyperparameters of `sklearn.ensemble.RandomForestClassifier` that
`bin/main.py` sets (lines 163-165). -/
structure ForestHyper where
  max_features : ℕ
  n_estimators : ℕ
  max_depth : ℕ
deriving DecidableEq, Repr

/-- Opaque handle for a trained random-forest model. -/
abbrev Model := ℕ

/-- The `post_process_params` dictionary (line 232). -/
structure PostParams where
  simple_post : Bool
deriving DecidableEq, Repr

/-- The behaviour of the external collaborators the driver calls, kept
abstract: per-subject pre-processing (`pipeline_utilities` internals),
`sklearn` fit/predict, per-subject post-processing.  The driver theorems hold
for every instantiation. -/
structure Collaborators where
  pre_process_one : PreProcessParams → String → String → RawSubject → ProcessedSubject
  fit_rng : ℕ → ForestHyper → List (List ℚ) → List ℚ → Model
  predict : Model → List (List ℚ) → List ℕ
  predict_proba : Model → List (List ℚ) → List (List ℚ)
  post_process_one : BrainImage → SitkImage → SitkVectorImage → PostParams → SitkImage

/-- Modelled from the spec: `pipeline_utilities.pre_process_batch` is not under
`src/`.  Per the spec (§4.3 ImageBatchProcessor), it pre-processes and
feature-extracts each subject independently, the output order matches the
input order regardless of the `multi_process` flag, and each subject's
per-class intensity mean/std statistics are appended to the module-level
accumulators (§4.2 side effect). -/
def pre_process_batch (c : Collaborators) (st : StatsState) (data : List RawSubject)
    (params : PreProcessParams) (norm_method artifact_method : String)
    (_multi_process : Bool) : List BrainImage × StatsState :=
  let processed := data.map (c.pre_process_one params norm_method artifact_method)
  (processed.map (·.image),
   ⟨st.feature_mean_intensities ++ processed.map (·.mean_entry),
    st.feature_std_intensities ++ processed.map (·.std_entry)⟩)

/-- Elementwise sum of a list of equal-length statistics entries, modelling
`np.sum(entries, axis=0)`. -/
def sum_entries : List (List ℚ) → List ℚ
  | [] => []
  | [e] => e
  | e :: es => List.zipWith (· + ·) e (sum_entries es)

/-- `np.sum(entries, axis=0) / len(entries)` as computed by the driver's
statistics reports (lines 139-140 and 193-194). -/
def aggregate_entries (es : List (List ℚ)) : List ℚ :=
  (sum_entries es).map (fun v => v / (es.length : ℚ))

/-- `pymia.data.conversion.NumpySimpleITKImageBridge.convert` on a flat label
array: rebuilds a scalar image from the array and the given geometric
properties. -/
def convert (xs : List ℚ) (props : ImageProps) : SitkImage :=
  ⟨xs, props⟩

/-- `NumpySimpleITKImageBridge.convert` on a 2-D probability array: rebuilds a
vector image from the rows and the given geometric properties. -/
def convert_proba (rows : List (List ℚ)) (props : ImageProps) : SitkVectorImage :=
  ⟨rows, props⟩

/-- `predictions.astype(np.uint8)` (line 221): each label is reduced modulo
`2^8`. -/
def astype_uint8 (xs : List ℕ) : List ℕ :=
  xs.map (fun n => n % 2 ^ 8)

/-- Cast of an integer label array to the rational voxel values stored in a
`SitkImage`. -/
def natsToRat (xs : List ℕ) : List ℚ :=
  xs.map (fun n => (n : ℚ))

/-- One record appended by `evaluator.evaluate(prediction, ground_truth, tag)`
to the run-wide evaluation record set. -/
structure EvalRecord where
  tag : String
  prediction : SitkImage
  ground_truth : SitkImage
deriving DecidableEq, Repr

/-- The arguments of one `putil.pre_process_batch` call made by the driver. -/
structure PreProcessCall where
  params : PreProcessParams
  norm_method : String
  artifact_method : String
deriving DecidableEq, Repr

instance : Inhabited PreProcessCall :=
  ⟨⟨⟨false, false, false, false, false, false, false, false⟩, "", ""⟩⟩

/-- The driver's student-tunable configuration values with the literal values
of `bin/main.py` as defaults: the `pre_process_params` dictionary
(lines 66-72), the plotting switches (lines 78-79), the normalization choice
(line 87) and the artifact choice (line 95). -/
structure DriverConfig where
  skullstrip_pre : Bool := true
  normalization_pre : Bool := false
  artifact_pre : Bool := false
  registration_pre : Bool := false
  coordinates_feature : Bool := true
  intensity_feature : Bool := true
  gradient_intensity_feature : Bool := true
  plot_slice : Bool := false
  plot_hist : Bool := true
  norm_method_choice : String := "z"
  artifact_method_choice : String := "zero frequencies"
deriving DecidableEq, Repr

/-- The configuration with the exact values hard-coded in `bin/main.py`. -/
def defaultConfig : DriverConfig := {}

/-- The `pre_process_params` dictionary the driver builds for the training
pass (`'training'` not yet set; the key defaults to `True` for the batch
processor). -/
def trainParams (cfg : DriverConfig) : PreProcessParams :=
  ⟨cfg.skullstrip_pre, cfg.normalization_pre, cfg.artifact_pre, cfg.registration_pre,
   cfg.coordinates_feature, cfg.intensity_feature, cfg.gradient_intensity_feature, true⟩

/-- The `pre_process_params` dictionary as mutated by line 188 for the testing
pass: identical to the training dictionary except `'training'` is `False`. -/
def testParams (cfg : DriverConfig) : PreProcessParams :=
  ⟨cfg.skullstrip_pre, cfg.normalization_pre, cfg.artifact_pre, cfg.registration_pre,
   cfg.coordinates_feature, cfg.intensity_feature, cfg.gradient_intensity_feature, false⟩

/-- Lines 87-90: the normalization method actually used: the student's choice
when `normalization_pre` is enabled, `'no'` otherwise. -/
def configured_norm_method (cfg : DriverConfig) : String :=
  if cfg.normalization_pre then cfg.norm_method_choice else "no"

/-- Lines 95-98: the artifact method actually configured: the student's choice
when `artifact_pre` is enabled, `'none'` otherwise. -/
def configured_artifact_method (cfg : DriverConfig) : String :=
  if cfg.artifact_pre then cfg.artifact_method_choice else "none"

/-- The externally supplied inputs of one pipeline run: the crawled training
and testing subject lists and the command-line result directory. -/
structure PipelineInputs where
  train_data : List RawSubject
  test_data : List RawSubject
  result_dir : String

/-- The per-test-subject raw prediction image (lines 216 and 221-222): the
forest's labels, cast to `uint8`, rebuilt with the subject's own geometric
properties. -/
def testPrediction (c : Collaborators) (model : Model) (s : BrainImage) : SitkImage :=
  convert (natsToRat (astype_uint8 (c.predict model s.feature_matrix.1))) s.image_properties

/-- The per-test-subject probability image (lines 217 and 223): the forest's
class probabilities rebuilt with the subject's own geometric properties. -/
def testProbabilities (c : Collaborators) (model : Model) (s : BrainImage) : SitkVectorImage :=
  convert_proba (c.predict_proba model s.feature_matrix.1) s.image_properties

/-- Modelled from the spec: `pipeline_utilities.post_process_batch` is not
under `src/`.  Per the spec (§5), post-processing is independent per subject
and the output order matches the input order. -/
def post_process_batch (c : Collaborators) (subjects : List BrainImage)
    (predictions : List SitkImage) (probabilities : List SitkVectorImage)
    (params : PostParams) (_multi_process : Bool) : List SitkImage :=
  (subjects.zip (predictions.zip probabilities)).map
    (fun p => c.post_process_one p.1 p.2.1 p.2.2 params)

/-- Everything one run of `main` computes and every externally visible action
it takes, in program order. -/
structure RunOutput where
  preProcessCalls : List PreProcessCall
  images_train : List BrainImage
  trainStats : StatsState
  trainReportMean : List ℚ
  trainReportStd : List ℚ
  normImageWrites : List (String × SitkImage)
  data_train : List (List ℚ)
  labels_train : List ℚ
  forestHyper : ForestHyper
  fitCalls : List (List (List ℚ) × List ℚ)
  model : Model
  images_test : List BrainImage
  testStats : StatsState
  testReportMean : List ℚ
  testReportStd : List ℚ
  predictCalls : List (Model × List (List ℚ))
  predictProbaCalls : List (Model × List (List ℚ))
  images_prediction : List SitkImage
  images_probabilities : List SitkVectorImage
  images_post_processed : List SitkImage
  evalRecords : List EvalRecord
  resultWrites : List (String × SitkImage)

/-- The driver `main` of `bin/main.py`, lines 52-242, as a pure function.
`ambient_rng` is the state of the process-wide random generators before the
run; lines 52-54 discard it by re-seeding both generators with the fixed seed
42.  `timestamp` is the external clock value of line 172.  Atlas loading
(line 57) and the plotting block (lines 104-129) have no effect on any value
the driver computes and are omitted. -/
def mainRun (c : Collaborators) (cfg : DriverConfig) (_ambient_rng : ℕ)
    (timestamp : String) (inp : PipelineInputs) : RunOutput :=
  -- lines 52-54: seed = 42; random.seed(seed); np.random.seed(seed)
  let seeded_rng : ℕ := 42
  -- lines 66-72 and 74-98: parameter dictionary, reset of the global
  -- accumulators, normalization and artifact method selection
  let params := trainParams cfg
  let st0 := init_global_variable
  let norm_method := configured_norm_method cfg
  let artifact_method := configured_artifact_method cfg
  -- lines 101-102: training batch pre-processing; `artifact_method='none'`
  -- is hard-coded at this call site
  let trainBatch := pre_process_batch c st0 inp.train_data params norm_method "none" false
  let images := trainBatch.1
  let st1 := trainBatch.2
  -- lines 131-136: write the normalized images; both paths receive the
  -- subject's T1w volume
  let normWrites := (images.map (fun img =>
    [("./mia-result/norm images/" ++ norm_method ++ "-norm_" ++ img.id_ ++ "_T1w.nii.gz",
      img.images BrainImageTypes.T1w),
     ("./mia-result/norm images/" ++ norm_method ++ "-norm_" ++ img.id_ ++ "_T2w.nii.gz",
      img.images BrainImageTypes.T1w)])).flatten
  -- lines 139-140: training-pass statistics report consumes st1
  let trainMean := aggregate_entries st1.feature_mean_intensities
  let trainStd := aggregate_entries st1.feature_std_intensities
  -- line 154: reset the accumulators for the test procedure
  let st2 := init_global_variable
  -- lines 157-158: concatenate per-subject features and labels
  let data_train := (images.map (·.feature_matrix.1)).flatten
  let labels_train := (images.map (·.feature_matrix.2)).flatten
  -- lines 163-168: build the forest and fit it once
  let hyper : ForestHyper :=
    ⟨((images.headD default).feature_matrix.1.headD []).length, 20, 25⟩
  let model := c.fit_rng seeded_rng hyper data_train labels_train
  -- lines 172-173: timestamped result directory
  let run_result_dir := inp.result_dir ++ "/" ++ timestamp
  -- lines 188-190: testing batch pre-processing with training=False and the
  -- configured artifact method
  let test_params := testParams cfg
  let testBatch := pre_process_batch c st2 inp.test_data test_params norm_method
    artifact_method false
  let images_test := testBatch.1
  let st3 := testBatch.2
  -- lines 193-194: testing-pass statistics report consumes st3
  let testMean := aggregate_entries st3.feature_mean_intensities
  let testStd := aggregate_entries st3.feature_std_intensities
  -- lines 212-229: per-subject prediction, conversion, raw evaluation
  let images_prediction := images_test.map (testPrediction c model)
  let images_probabilities := images_test.map (testProbabilities c model)
  let rawRecords := images_test.map (fun s =>
    EvalRecord.mk s.id_ (testPrediction c model s) (s.images BrainImageTypes.GroundTruth))
  -- lines 232-234: batch post-processing
  let pp_params : PostParams := ⟨true⟩
  let images_post_processed :=
    post_process_batch c images_test images_prediction images_probabilities pp_params true
  -- lines 236-238: post-processed evaluation with the '-PP' tag
  let ppRecords := (images_test.zip images_post_processed).map (fun p =>
    EvalRecord.mk (p.1.id_ ++ "-PP") p.2 (p.1.images BrainImageTypes.GroundTruth))
  -- lines 240-242: write the segmentation results
  let segWrites := ((images_test.zip (images_prediction.zip images_post_processed)).map
    (fun p =>
      [(run_result_dir ++ "/" ++ p.1.id_ ++ "_SEG.mha", p.2.1),
       (run_result_dir ++ "/" ++ p.1.id_ ++ "_SEG-PP.mha", p.2.2)])).flatten
  { preProcessCalls :=
      [⟨params, norm_method, "none"⟩, ⟨test_params, norm_method, artifact_method⟩]
    images_train := images
    trainStats := st1
    trainReportMean := trainMean
    trainReportStd := trainStd
    normImageWrites := normWrites
    data_train := data_train
    labels_train := labels_train
    forestHyper := hyper
    fitCalls := [(data_train, labels_train)]
    model := model
    images_test := images_test
    testStats := st3
    testReportMean := testMean
    testReportStd := testStd
    predictCalls := images_test.map (fun s => (model, s.feature_matrix.1))
    predictProbaCalls := images_test.map (fun s => (model, s.feature_matrix.1))
    images_prediction := images_prediction
    images_probabilities := images_probabilities
    images_post_processed := images_post_processed
    evalRecords := rawRecords ++ ppRecords
    resultWrites := segWrites }

/-- The error raised by z-score normalization on a degenerate volume. -/
inductive NormalizationError where
  | DegenerateInputError
deriving DecidableEq, Repr

/-- The intensities of the voxels inside the brain mask. -/
def masked_intensities (image : List ℚ) (mask : List Bool) : List ℚ :=
  ((image.zip mask).filter (·.2)).map (·.1)

/-- Arithmetic mean of a list of intensities (0 on the empty list, since
`0 / 0 = 0` in `ℚ`). -/
def list_mean (xs : List ℚ) : ℚ :=
  xs.sum / (xs.length : ℚ)

/-- Population variance of a list of intensities; the masked standard
deviation of a volume is the square root of this value, so it is zero exactly
when this value is zero. -/
def list_variance (xs : List ℚ) : ℚ :=
  ((xs.map (fun v => (v - list_mean xs) ^ 2)).sum) / (xs.length : ℚ)

/-- A z-score-normalized volume in exact form.  The normalized intensity of
voxel `i` is `deviations[i] / √variance`; since `√variance` is irrational in
general, the result is kept as the pair (deviations, variance) instead of
evaluating the quotient. -/
structure ZScoreVolume where
  deviations : List ℚ
  variance : ℚ
deriving DecidableEq, Repr

/-- Modelled from the spec: the z-score normalization strategy of the
NormalizationEngine (`pipeline_utilities` / the normalization module, not
under `src/`).  Per the spec (§4.1), it subtracts the masked mean and divides
by the masked standard deviation, and fails with a `DegenerateInputError` when
the masked standard deviation is zero.  The standard deviation `√variance` is
zero exactly when the masked variance is zero, so the degeneracy test is
expressed on the variance. -/
def zscore_normalize (image : List ℚ) (mask : List Bool) :
    Except NormalizationError ZScoreVolume :=
  let vals := masked_intensities image mask
  if list_variance vals = 0 then
    Except.error NormalizationError.DegenerateInputError
  else
    Except.ok ⟨image.map (fun v => v - list_mean vals), list_variance vals⟩

/-- A segmentation volume for post-processing, modelled one-dimensionally in
run-length form: the geometric metadata plus a list of `(label, length)` runs;
label `0` is background, and the connected components of a non-background
class are its runs. -/
structure RunSeg where
  props : ImageProps
  runs : List (ℕ × ℕ)
deriving DecidableEq, Repr

/-- The label of the `k`-th run. -/
def runLabel (rs : List (ℕ × ℕ)) (k : ℕ) : ℕ :=
  (rs.getD k (0, 0)).1

/-- The voxel count of the `k`-th run. -/
def runLen (rs : List (ℕ × ℕ)) (k : ℕ) : ℕ :=
  (rs.getD k (0, 0)).2

/-- The indices of the runs belonging to class `c`. -/
def classRuns (rs : List (ℕ × ℕ)) (c : ℕ) : List ℕ :=
  (List.range rs.length).filter (fun k => runLabel rs k = c)

/-- The index of the largest connected component of class `c`: the first run
of `c` with maximal voxel count (`none` when the class is absent). -/
def largestComponent (rs : List (ℕ × ℕ)) (c : ℕ) : Option ℕ :=
  (classRuns rs c).argmax (runLen rs)

/-- Largest-connected-component retention: every non-background run that is
not its class's largest component is relabelled to background `0`; run
lengths are unchanged. -/
def retainLargest (rs : List (ℕ × ℕ)) : List (ℕ × ℕ) :=
  (List.range rs.length).map (fun k =>
    if runLabel rs k ≠ 0 ∧ largestComponent rs (runLabel rs k) = some k then
      (runLabel rs k, runLen rs k)
    else
      (0, runLen rs k))

/-- Modelled from the spec: the post-processing step
(`pipeline_utilities.post_process`, not under `src/`).  Per the spec (§4.5),
with the `simple_post` configuration it applies largest-connected-component
retention per class to the raw prediction, preserving the geometric metadata;
with `simple_post` disabled the prediction passes through unchanged.  The
subject volumes and the class-probability volume accompany the call but are
not consulted by this cleanup. -/
def post_process (_subject : BrainImage) (prediction : RunSeg)
    (_probabilities : SitkVectorImage) (params : PostParams) : RunSeg :=
  if params.simple_post then
    ⟨prediction.props, retainLargest prediction.runs⟩
  else
    prediction

/-- A small concrete collaborator instantiation, used to evaluate the driver
theorems on concrete runs. -/
def demoCollab : Collaborators where
  pre_process_one := fun _ _ _ r =>
    { image :=
        { id_ := toString r
          images := fun _ => ⟨[(r : ℚ)], r⟩
          image_properties := r
          feature_matrix := ([[(r : ℚ)], [(r : ℚ) + 1]], [(r : ℚ), (r : ℚ) + 5]) }
      mean_entry := [(r : ℚ)]
      std_entry := [1] }
  fit_rng := fun rng _ xs _ => rng + xs.length
  predict := fun m xs => xs.map (fun _ => m)
  predict_proba := fun _ xs => xs.map (fun _ => [1 / 2, 1 / 2])
  post_process_one := fun _ p _ _ => p

/-- Concrete crawled inputs for evaluating the driver theorems. -/
def demoInputs : PipelineInputs :=
  ⟨[0, 1], [2], "res"⟩

/-- The driver configuration with the artifact pre-processing step switched
on, everything else as hard-coded in `bin/main.py`. -/
def artifactEnabledConfig : DriverConfig :=
  { defaultConfig with artifact_pre := true }

/-- C1: the per-class intensity statistics accumulators are reset before the
training pass (line 75) and again between the training report and the testing
pass (line 154), so the statistics consumed by the training report (lines
139-152) are exactly the per-subject accumulations of the training subjects,
and the statistics consumed by the testing report (lines 193-207) are exactly
those of the testing subjects: statistics of the two passes are never
aggregated together. -/
theorem train_test_statistics_never_mix (c : Collaborators) (cfg : DriverConfig)
    (rng : ℕ) (t : String) (inp : PipelineInputs) :
    (mainRun c cfg rng t inp).trainStats =
      ⟨(inp.train_data.map
          (c.pre_process_one (trainParams cfg) (configured_norm_method cfg) "none")).map
            (·.mean_entry),
       (inp.train_data.map
          (c.pre_process_one (trainParams cfg) (configured_norm_method cfg) "none")).map
            (·.std_entry)⟩ ∧
    (mainRun c cfg rng t inp).testStats =
      ⟨(inp.test_data.map
          (c.pre_process_one (testParams cfg) (configured_norm_method cfg)
            (configured_artifact_method cfg))).map (·.mean_entry),
       (inp.test_data.map
          (c.pre_process_one (testParams cfg) (configured_norm_method cfg)
            (configured_artifact_method cfg))).map (·.std_entry)⟩ :=
  ⟨rfl, rfl⟩

/-- C2: the ensemble classifier is fit exactly once, on the feature matrix and
label vector concatenated over all training subjects (lines 157-158, 168), and
every test subject's `predict` and `predict_proba` call uses that same trained
model, with no second `fit` call and no mutation between test subjects
(lines 212-217). -/
theorem classifier_fit_once_and_reused (c : Collaborators) (cfg : DriverConfig)
    (rng : ℕ) (t : String) (inp : PipelineInputs) :
    (mainRun c cfg rng t inp).fitCalls =
      [((mainRun c cfg rng t inp).data_train, (mainRun c cfg rng t inp).labels_train)] ∧
    (mainRun c cfg rng t inp).data_train =
      ((mainRun c cfg rng t inp).images_train.map (·.feature_matrix.1)).flatten ∧
    (mainRun c cfg rng t inp).labels_train =
      ((mainRun c cfg rng t inp).images_train.map (·.feature_matrix.2)).flatten ∧
    (mainRun c cfg rng t inp).model =
      c.fit_rng 42 (mainRun c cfg rng t inp).forestHyper
        (mainRun c cfg rng t inp).data_train (mainRun c cfg rng t inp).labels_train ∧
    (mainRun c cfg rng t inp).predictCalls =
      (mainRun c cfg rng t inp).images_test.map
        (fun s => ((mainRun c cfg rng t inp).model, s.feature_matrix.1)) ∧
    (mainRun c cfg rng t inp).predictProbaCalls =
      (mainRun c cfg rng t inp).images_test.map
        (fun s => ((mainRun c cfg rng t inp).model, s.feature_matrix.1)) :=
  ⟨rfl, rfl, rfl, rfl, rfl, rfl⟩

/-- C3 (amended): the testing pass's batch pre-processing call receives the
configured artifact method (the chosen method exactly when artifact
pre-processing is enabled, `'none'` when disabled), while the training pass's
call always receives `'none'` — line 102 hard-codes it — regardless of the
artifact setting. -/
theorem artifact_method_per_pass (c : Collaborators) (cfg : DriverConfig)
    (rng : ℕ) (t : String) (inp : PipelineInputs) :
    (mainRun c cfg rng t inp).preProcessCalls =
      [⟨trainParams cfg, configured_norm_method cfg, "none"⟩,
       ⟨testParams cfg, configured_norm_method cfg, configured_artifact_method cfg⟩] :=
  rfl

/-- C3 (counterexample): with artifact pre-processing enabled, the configured
artifact method is `'zero frequencies'`, yet the training pass's batch
pre-processing call receives `'none'` — the claim that both passes receive the
configured method when it is enabled is false on this concrete run. -/
theorem artifact_method_train_pass_counterexample :
    artifactEnabledConfig.artifact_pre = true ∧
    configured_artifact_method artifactEnabledConfig = "zero frequencies" ∧
    ((mainRun demoCollab artifactEnabledConfig 0 "ts" demoInputs).preProcessCalls.getD 0
        default).artifact_method = "none" ∧
    ("none" : String) ≠ "zero frequencies" :=
  ⟨rfl, rfl, rfl, by decide⟩

/-- C5: with both random generators re-seeded at the fixed seed 42 (lines
52-54), the ambient random-generator state and the wall-clock timestamp have
no influence: two runs on identical inputs produce identical trained models
and identical per-test-subject label predictions and class probabilities. -/
theorem pipeline_run_deterministic (c : Collaborators) (cfg : DriverConfig)
    (inp : PipelineInputs) (r₁ r₂ : ℕ) (t₁ t₂ : String) :
    (mainRun c cfg r₁ t₁ inp).model = (mainRun c cfg r₂ t₂ inp).model ∧
    (mainRun c cfg r₁ t₁ inp).images_prediction =
      (mainRun c cfg r₂ t₂ inp).images_prediction ∧
    (mainRun c cfg r₁ t₁ inp).images_probabilities =
      (mainRun c cfg r₂ t₂ inp).images_probabilities :=
  ⟨rfl, rfl, rfl⟩

/-- Concatenating two per-element-aligned list families preserves alignment:
the concatenations have equal length, and pairing them up rowwise agrees with
pairing within each element first and concatenating afterwards. -/
theorem flatten_zip_flatten {α β γ : Type _} :
    ∀ (l : List γ) (f : γ → List α) (g : γ → List β),
      (∀ x ∈ l, (f x).length = (g x).length) →
      (l.map f).flatten.length = (l.map g).flatten.length ∧
        ((l.map f).flatten).zip ((l.map g).flatten) =
          (l.map (fun x => (f x).zip (g x))).flatten := by
  intro l f g h
  induction l with
  | nil => exact ⟨rfl, rfl⟩
  | cons a l ih =>
    have ha : (f a).length = (g a).length := h a (List.mem_cons_self a l)
    have ih' := ih (fun x hx => h x (List.mem_cons_of_mem a hx))
    constructor
    · simp only [List.map_cons, List.flatten_cons, List.length_append, ha, ih'.1]
    · simp only [List.map_cons, List.flatten_cons, List.zip_append ha, ih'.2]

/-- C4: the aggregated training feature matrix and label vector (lines
157-158) are concatenations of the per-subject feature matrices and label
vectors over the same subject list in the same order, so — provided each
subject's matrix and vector are row-aligned — the concatenations have equal
length and the feature row and label at every global row index are the pair
some single subject holds at one of its own row indices. -/
theorem training_concatenation_row_aligned (c : Collaborators) (cfg : DriverConfig)
    (rng : ℕ) (t : String) (inp : PipelineInputs)
    (h : ∀ img ∈ (mainRun c cfg rng t inp).images_train,
      img.feature_matrix.1.length = img.feature_matrix.2.length) :
    (mainRun c cfg rng t inp).data_train.length =
      (mainRun c cfg rng t inp).labels_train.length ∧
    (mainRun c cfg rng t inp).data_train.zip (mainRun c cfg rng t inp).labels_train =
      ((mainRun c cfg rng t inp).images_train.map
        (fun img => img.feature_matrix.1.zip img.feature_matrix.2)).flatten := by
  have h1 : (mainRun c cfg rng t inp).data_train =
      ((mainRun c cfg rng t inp).images_train.map (·.feature_matrix.1)).flatten := rfl
  have h2 : (mainRun c cfg rng t inp).labels_train =
      ((mainRun c cfg rng t inp).images_train.map (·.feature_matrix.2)).flatten := rfl
  rw [h1, h2]
  exact flatten_zip_flatten (mainRun c cfg rng t inp).images_train
    (·.feature_matrix.1) (·.feature_matrix.2) h

/-- Witness for C4 on a concrete run. -/
theorem training_concatenation_row_aligned_witness :
    (∀ img ∈ (mainRun demoCollab defaultConfig 0 "ts" demoInputs).images_train,
      img.feature_matrix.1.length = img.feature_matrix.2.length) ∧
    (mainRun demoCollab defaultConfig 0 "ts" demoInputs).data_train.zip
        (mainRun demoCollab defaultConfig 0 "ts" demoInputs).labels_train =
      ((mainRun demoCollab defaultConfig 0 "ts" demoInputs).images_train.map
        (fun img => img.feature_matrix.1.zip img.feature_matrix.2)).flatten :=
  ⟨by decide,
   (training_concatenation_row_aligned demoCollab defaultConfig 0 "ts" demoInputs
      (by decide)).2⟩

/-- C6: every test subject is evaluated exactly twice and the results are
appended to the run-wide record set: once on the raw per-voxel prediction
tagged with the subject identifier (line 226), and once on the post-processed
prediction tagged with the identifier suffixed `-PP` (lines 236-238). -/
theorem every_test_subject_evaluated_twice (c : Collaborators) (cfg : DriverConfig)
    (rng : ℕ) (t : String) (inp : PipelineInputs) :
    (mainRun c cfg rng t inp).evalRecords =
      (mainRun c cfg rng t inp).images_test.map (fun s =>
        ⟨s.id_, testPrediction c (mainRun c cfg rng t inp).model s,
         s.images BrainImageTypes.GroundTruth⟩)
      ++ ((mainRun c cfg rng t inp).images_test.zip
            (mainRun c cfg rng t inp).images_post_processed).map (fun p =>
        ⟨p.1.id_ ++ "-PP", p.2, p.1.images BrainImageTypes.GroundTruth⟩) ∧
    (mainRun c cfg rng t inp).evalRecords.length =
      (mainRun c cfg rng t inp).images_test.length +
        (mainRun c cfg rng t inp).images_test.length := by
  refine ⟨rfl, ?_⟩
  simp [mainRun, pre_process_batch, post_process_batch]

/-- C7: for every test subject, the predicted label volume and the
class-probability volume are reconstructed from the flat prediction arrays
with that subject's own geometric image properties (lines 220-223). -/
theorem prediction_volumes_use_subject_geometry (c : Collaborators)
    (cfg : DriverConfig) (rng : ℕ) (t : String) (inp : PipelineInputs) :
    (mainRun c cfg rng t inp).images_prediction.map (·.props) =
      (mainRun c cfg rng t inp).images_test.map (·.image_properties) ∧
    (mainRun c cfg rng t inp).images_probabilities.map (·.props) =
      (mainRun c cfg rng t inp).images_test.map (·.image_properties) := by
  have h1 : (mainRun c cfg rng t inp).images_prediction =
      (mainRun c cfg rng t inp).images_test.map
        (testPrediction c (mainRun c cfg rng t inp).model) := rfl
  have h2 : (mainRun c cfg rng t inp).images_probabilities =
      (mainRun c cfg rng t inp).images_test.map
        (testProbabilities c (mainRun c cfg rng t inp).model) := rfl
  rw [h1, h2, List.map_map, List.map_map]
  exact ⟨rfl, rfl⟩

/-- Every entry of a per-subject write list whose two pairs both carry the
subject's T1w volume indeed carries some listed subject's T1w volume. -/
theorem mem_t1w_write_pairs {images : List BrainImage} {p q : BrainImage → String}
    {e : String × SitkImage}
    (he : e ∈ (images.map (fun img =>
      [(p img, img.images BrainImageTypes.T1w),
       (q img, img.images BrainImageTypes.T1w)])).flatten) :
    ∃ img ∈ images, e.2 = img.images BrainImageTypes.T1w := by
  rw [List.mem_flatten] at he
  rcases he with ⟨l, hl, hel⟩
  rw [List.mem_map] at hl
  rcases hl with ⟨img, himg, rfl⟩
  rcases List.mem_cons.1 hel with h | h
  · exact ⟨img, himg, by rw [h]⟩
  · rcases List.mem_cons.1 h with h' | h'
    · exact ⟨img, himg, by rw [h']⟩
    · cases List.not_mem_nil e h'

/-- C10: in the normalized-image export after the training pass (lines
131-136), for every training subject the T1w volume is written both to the
T1w-named output path and to the T2w-named output path, and every volume this
step writes is some training subject's T1w volume — the T2w volume is never
written. -/
theorem norm_export_writes_t1w_to_both_paths (c : Collaborators)
    (cfg : DriverConfig) (rng : ℕ) (t : String) (inp : PipelineInputs) :
    (mainRun c cfg rng t inp).normImageWrites =
      ((mainRun c cfg rng t inp).images_train.map (fun img =>
        [("./mia-result/norm images/" ++ configured_norm_method cfg ++ "-norm_" ++
            img.id_ ++ "_T1w.nii.gz", img.images BrainImageTypes.T1w),
         ("./mia-result/norm images/" ++ configured_norm_method cfg ++ "-norm_" ++
            img.id_ ++ "_T2w.nii.gz", img.images BrainImageTypes.T1w)])).flatten ∧
    ∀ e ∈ (mainRun c cfg rng t inp).normImageWrites,
      ∃ img ∈ (mainRun c cfg rng t inp).images_train,
        e.2 = img.images BrainImageTypes.T1w := by
  refine ⟨rfl, ?_⟩
  intro e he
  have h1 : (mainRun c cfg rng t inp).normImageWrites =
      ((mainRun c cfg rng t inp).images_train.map (fun img =>
        [("./mia-result/norm images/" ++ configured_norm_method cfg ++ "-norm_" ++
            img.id_ ++ "_T1w.nii.gz", img.images BrainImageTypes.T1w),
         ("./mia-result/norm images/" ++ configured_norm_method cfg ++ "-norm_" ++
            img.id_ ++ "_T2w.nii.gz", img.images BrainImageTypes.T1w)])).flatten := rfl
  rw [h1] at he
  exact mem_t1w_write_pairs he

/-- Witness for C10 on a concrete run: the first write event of the export
carries the first training subject's T1w volume. -/
theorem norm_export_writes_t1w_witness :
    (mainRun demoCollab defaultConfig 0 "ts" demoInputs).normImageWrites.getD 0
        ("", ⟨[], 0⟩) ∈
      (mainRun demoCollab defaultConfig 0 "ts" demoInputs).normImageWrites ∧
    ∃ img ∈ (mainRun demoCollab defaultConfig 0 "ts" demoInputs).images_train,
      ((mainRun demoCollab defaultConfig 0 "ts" demoInputs).normImageWrites.getD 0
        ("", ⟨[], 0⟩)).2 = img.images BrainImageTypes.T1w :=
  ⟨by decide,
   (norm_export_writes_t1w_to_both_paths demoCollab defaultConfig 0 "ts" demoInputs).2
     ((mainRun demoCollab defaultConfig 0 "ts" demoInputs).normImageWrites.getD 0
       ("", ⟨[], 0⟩)) (by decide)⟩

/-- A list whose elements are pairwise equal has zero variance. -/
theorem list_variance_eq_zero_of_const (xs : List ℚ)
    (h : ∀ x ∈ xs, ∀ y ∈ xs, x = y) : list_variance xs = 0 := by
  rcases xs with _ | ⟨a, l⟩
  · simp [list_variance]
  · have hall : ∀ x ∈ a :: l, x = a := fun x hx => h x hx a (List.mem_cons_self a l)
    have hlen : (((a :: l).length : ℕ) : ℚ) ≠ 0 := by
      rw [Nat.cast_ne_zero]
      simp
    have hmean : list_mean (a :: l) = a := by
      unfold list_mean
      rw [List.sum_eq_card_nsmul (a :: l) a hall, nsmul_eq_mul]
      exact mul_div_cancel_left₀ a hlen
    have hzero : ((a :: l).map (fun v => (v - list_mean (a :: l)) ^ 2)).sum = 0 := by
      apply List.sum_eq_zero
      intro x hx
      rw [List.mem_map] at hx
      rcases hx with ⟨v, hv, rfl⟩
      rw [hall v hv, hmean]
      ring
    unfold list_variance
    rw [hzero, zero_div]

/-- C8: for every volume whose in-mask intensities are all equal — so the
masked standard deviation is zero — z-score normalization fails with a
`DegenerateInputError` instead of returning a volume. -/
theorem zscore_constant_volume_fails (image : List ℚ) (mask : List Bool)
    (h : ∀ x ∈ masked_intensities image mask,
      ∀ y ∈ masked_intensities image mask, x = y) :
    zscore_normalize image mask =
      Except.error NormalizationError.DegenerateInputError := by
  have hv : list_variance (masked_intensities image mask) = 0 :=
    list_variance_eq_zero_of_const _ h
  unfold zscore_normalize
  simp [hv]

/-- Witness for C8: a volume with constant in-mask intensity is rejected. -/
theorem zscore_constant_volume_fails_witness :
    (∀ x ∈ masked_intensities [3, 3, 7] [true, true, false],
      ∀ y ∈ masked_intensities [3, 3, 7] [true, true, false], x = y) ∧
    zscore_normalize [3, 3, 7] [true, true, false] =
      Except.error NormalizationError.DegenerateInputError :=
  ⟨by decide, zscore_constant_volume_fails _ _ (by decide)⟩

/-- `retainLargest` written as a map over the run indices. -/
theorem retainLargest_def (rs : List (ℕ × ℕ)) :
    retainLargest rs = (List.range rs.length).map (fun k =>
      if runLabel rs k ≠ 0 ∧ largestComponent rs (runLabel rs k) = some k then
        (runLabel rs k, runLen rs k)
      else
        (0, runLen rs k)) :=
  rfl

/-- Retention does not change the number of runs. -/
theorem retainLargest_length (rs : List (ℕ × ℕ)) :
    (retainLargest rs).length = rs.length := by
  simp [retainLargest]

/-- The entry of the retained run list at an in-range index. -/
theorem retainLargest_getD (rs : List (ℕ × ℕ)) {k : ℕ} (h : k < rs.length) :
    (retainLargest rs).getD k (0, 0) =
      if runLabel rs k ≠ 0 ∧ largestComponent rs (runLabel rs k) = some k then
        (runLabel rs k, runLen rs k)
      else
        (0, runLen rs k) := by
  rw [List.getD_eq_getElem _ _ (by rw [retainLargest_length]; exact h)]
  simp [retainLargest]

/-- The entry of the retained run list at an out-of-range index. -/
theorem retainLargest_getD_ge (rs : List (ℕ × ℕ)) {k : ℕ} (h : rs.length ≤ k) :
    (retainLargest rs).getD k (0, 0) = (0, 0) :=
  List.getD_eq_default _ _ (by rw [retainLargest_length]; exact h)

/-- Retention preserves every run's voxel count. -/
theorem runLen_retainLargest (rs : List (ℕ × ℕ)) (k : ℕ) :
    runLen (retainLargest rs) k = runLen rs k := by
  unfold runLen
  rcases Nat.lt_or_ge k rs.length with h | h
  · rw [retainLargest_getD rs h]
    split
    · rfl
    · rfl
  · rw [retainLargest_getD_ge rs h, List.getD_eq_default _ _ h]

/-- The label of a retained run at an in-range index: unchanged when the run
is its class's largest component, background otherwise. -/
theorem runLabel_retainLargest (rs : List (ℕ × ℕ)) {k : ℕ} (h : k < rs.length) :
    runLabel (retainLargest rs) k =
      if runLabel rs k ≠ 0 ∧ largestComponent rs (runLabel rs k) = some k then
        runLabel rs k
      else 0 := by
  show ((retainLargest rs).getD k (0, 0)).1 = _
  rw [retainLargest_getD rs h]
  by_cases hcond : runLabel rs k ≠ 0 ∧ largestComponent rs (runLabel rs k) = some k
  · rw [if_pos hcond, if_pos hcond]
  · rw [if_neg hcond, if_neg hcond]

/-- After retention, a run carries the non-background label `c` exactly when
it carried `c` before and is the largest component of class `c`. -/
theorem runLabel_retainLargest_eq_iff (rs : List (ℕ × ℕ)) (k : ℕ) {c : ℕ}
    (hc : c ≠ 0) :
    runLabel (retainLargest rs) k = c ↔
      runLabel rs k = c ∧ largestComponent rs c = some k := by
  constructor
  · intro hl
    rcases Nat.lt_or_ge k rs.length with h | h
    · rw [runLabel_retainLargest rs h] at hl
      by_cases hcond : runLabel rs k ≠ 0 ∧ largestComponent rs (runLabel rs k) = some k
      · rw [if_pos hcond] at hl
        exact ⟨hl, hl ▸ hcond.2⟩
      · rw [if_neg hcond] at hl
        exact absurd hl.symm hc
    · unfold runLabel at hl
      rw [retainLargest_getD_ge rs h] at hl
      exact absurd hl.symm hc
  · rintro ⟨hlabel, hlarge⟩
    have hk : k ∈ classRuns rs c :=
      List.argmax_mem (show k ∈ (classRuns rs c).argmax (runLen rs) from hlarge)
    have hk' : k < rs.length := by
      have := (List.mem_filter.1 hk).1
      simpa [List.mem_range] using this
    rw [runLabel_retainLargest rs hk']
    rw [if_pos ⟨by rw [hlabel]; exact hc, by rw [hlabel]; exact hlarge⟩]
    exact hlabel

/-- Filtering the index range for one fixed in-range index yields exactly that
index. -/
theorem range_filter_eq_singleton {n k0 : ℕ} (h : k0 < n) :
    (List.range n).filter (fun k => k = k0) = [k0] := by
  induction n with
  | zero => omega
  | succ m ih =>
    rw [List.range_succ, List.filter_append]
    rcases Nat.lt_or_ge k0 m with hm | hm
    · rw [ih hm]
      have hne : ¬(m = k0) := by omega
      simp [hne]
    · have hk : k0 = m := by omega
      subst hk
      have h1 : (List.range k0).filter (fun k => k = k0) = [] := by
        rw [List.filter_eq_nil_iff]
        intro a ha
        have : a < k0 := List.mem_range.1 ha
        simp only [decide_eq_true_eq]
        omega
      rw [h1]
      simp

/-- After retention, class `c`'s runs are exactly its retained largest
component. -/
theorem classRuns_retainLargest (rs : List (ℕ × ℕ)) {c k0 : ℕ} (hc : c ≠ 0)
    (hl : largestComponent rs c = some k0) :
    classRuns (retainLargest rs) c = [k0] := by
  have hk0mem : k0 ∈ classRuns rs c :=
    List.argmax_mem (show k0 ∈ (classRuns rs c).argmax (runLen rs) from hl)
  have hk0 : k0 < rs.length := by
    have := (List.mem_filter.1 hk0mem).1
    simpa [List.mem_range] using this
  unfold classRuns
  rw [retainLargest_length]
  have hcong : ∀ k ∈ List.range rs.length,
      (decide (runLabel (retainLargest rs) k = c)) = (decide (k = k0)) := by
    intro k _
    apply decide_eq_decide.2
    constructor
    · intro hk
      have hkk := (runLabel_retainLargest_eq_iff rs k hc).1 hk
      rw [hkk.2] at hl
      exact Option.some.inj hl
    · rintro rfl
      exact (runLabel_retainLargest_eq_iff rs k hc).2
        ⟨of_decide_eq_true (List.mem_filter.1 hk0mem).2, hl⟩
  rw [List.filter_congr hcong]
  exact range_filter_eq_singleton hk0

/-- The retained largest component stays its class's largest component. -/
theorem largestComponent_retainLargest (rs : List (ℕ × ℕ)) {c k0 : ℕ}
    (hc : c ≠ 0) (hl : largestComponent rs c = some k0) :
    largestComponent (retainLargest rs) c = some k0 := by
  unfold largestComponent
  rw [classRuns_retainLargest rs hc hl]
  exact List.argmax_singleton

/-- Largest-connected-component retention is idempotent. -/
theorem retainLargest_idempotent (rs : List (ℕ × ℕ)) :
    retainLargest (retainLargest rs) = retainLargest rs := by
  rw [retainLargest_def (retainLargest rs), retainLargest_length]
  conv_rhs => rw [retainLargest_def rs]
  apply List.map_congr_left
  intro k hkmem
  have hk : k < rs.length := List.mem_range.1 hkmem
  by_cases hc0 : runLabel (retainLargest rs) k = 0
  · rw [if_neg (by simp [hc0])]
    by_cases hcond : runLabel rs k ≠ 0 ∧ largestComponent rs (runLabel rs k) = some k
    · exfalso
      have hlab := runLabel_retainLargest rs hk
      rw [if_pos hcond] at hlab
      exact hcond.1 (hlab ▸ hc0)
    · rw [if_neg hcond]
      rw [runLen_retainLargest]
  · have h1 := (runLabel_retainLargest_eq_iff rs k hc0).1 rfl
    have h2 : largestComponent (retainLargest rs) (runLabel (retainLargest rs) k) =
        some k :=
      largestComponent_retainLargest rs hc0 h1.2
    rw [if_pos ⟨hc0, h2⟩,
      if_pos (show runLabel rs k ≠ 0 ∧
          largestComponent rs (runLabel rs k) = some k from
        ⟨by rw [h1.1]; exact hc0, by rw [h1.1]; exact h1.2⟩)]
    rw [h1.1, runLen_retainLargest]

/-- C9: the post-processing step is idempotent — for every subject, raw
prediction, probability volume, and configuration, applying the post-processor
to its own output yields exactly the output of applying it once; the geometric
metadata is preserved along the way. -/
theorem post_process_idempotent (s : BrainImage) (prediction : RunSeg)
    (probabilities : SitkVectorImage) (params : PostParams) :
    post_process s (post_process s prediction probabilities params)
        probabilities params =
      post_process s prediction probabilities params := by
  unfold post_process
  by_cases hp : params.simple_post
  · rw [if_pos hp, if_pos hp]
    simp [retainLargest_idempotent]
  · rw [if_neg hp, if_neg hp]

end MyMIALab
